import Mathlib

/-!
# Verification of the alert evaluation and asynchronous dispatch pipeline

Shallow embedding of the alert pipeline of the bandix monitoring
repository:

* `app/services/alert_checker.py` — rule evaluation, suppression,
  alert-event creation (`check_traffic_threshold_alerts`,
  `check_device_offline_alerts`);
* `app/services/notification_queue.py` — module-level task queue,
  worker loop, `start_workers` / `stop_workers`,
  `send_notification_async`;
* `app/services/notification_service.py` — channel registry and
  per-channel fan-out sends;
* `app/api/alert_api.py` — the `acknowledge` status transition;
* `app/models/alert_models.py` — row shapes.

Time is modelled as `Int` seconds (`datetime.utcnow()` differences are
exact in the source; the comparisons under study are pure order
comparisons, so integer-second instants are faithful).  Network and SMTP
effects are supplied by an explicit oracle (`NetEnv`); database tables
are explicit lists.  String fields that never influence control flow in
the claims under study (the rendered alert `message`) are not modelled.
-/

namespace Bandix

/-! ## Data model (`app/models/alert_models.py`, `database_models.py`) -/

/-- Row of `alert_rules` (`AlertRule` in `alert_models.py`). -/
structure AlertRule where
  id : Nat
  type : String
  enabled : Bool
  thresholdBytes : Option Int
  deviceId : Option Nat
  offlineThresholdMinutes : Option Int
  notificationMethods : List String
  severity : String
deriving Repr, DecidableEq

/-- Row of `alert_history` (`AlertHistory` in `alert_models.py`).
The rendered `message` text is not modelled (it never influences any
control flow studied here). -/
structure AlertHistoryRec where
  id : Nat
  ruleId : Nat
  alertType : String
  severity : String
  status : String
  deviceId : Option Nat
  triggeredAt : Int
deriving Repr, DecidableEq

/-- Row of `devices` (`Device` in `database_models.py`): only the fields
the alert checker reads. -/
structure DeviceRec where
  id : Nat
  hostname : Option String
  mac : String
deriving Repr, DecidableEq

/-- Row of `total_traffic` (`TotalTraffic`): latest snapshot of
whole-network speeds. -/
structure TotalTrafficRec where
  timestamp : Int
  downSpeedBytes : Int
  upSpeedBytes : Int
deriving Repr, DecidableEq

/-- Row of `device_traffic` (`DeviceTraffic`): per-device speeds. -/
structure DeviceTrafficRec where
  deviceId : Nat
  timestamp : Int
  downSpeedBytes : Int
  upSpeedBytes : Int
deriving Repr, DecidableEq

/-- `timedelta(minutes=5)` in seconds. -/
def fiveMinutes : Int := 300

/-- `timedelta(minutes=m)` in seconds. -/
def minutesToSecs (m : Int) : Int := 60 * m

/-- `query.order_by(desc(timestamp)).first()`: the element with the
largest key, `none` on an empty table.  (On equal keys SQL order is
unspecified; this picks the later row, which no claim depends on.) -/
def latestBy {α : Type} (key : α → Int) : List α → Option α
  | [] => none
  | x :: xs =>
    match latestBy key xs with
    | none => some x
    | some y => if key x < key y then some y else some x

/-- The suppression query of `check_traffic_threshold_alerts`
(alert_checker.py lines 46–50): is there an `AlertHistory` row with this
`rule_id`, status `'triggered'` and `triggered_at >= now - 5min`?
(Note: no `device_id` filter on this one.) -/
def hasRecentTriggered (history : List AlertHistoryRec) (rid : Nat) (now : Int) : Bool :=
  history.any fun e =>
    e.ruleId == rid && e.status == "triggered" && decide (now - fiveMinutes ≤ e.triggeredAt)

/-- The suppression query of `check_device_offline_alerts`
(alert_checker.py lines 147–152): same, additionally filtered by
`device_id`. -/
def hasRecentTriggeredForDevice (history : List AlertHistoryRec) (rid did : Nat) (now : Int) : Bool :=
  history.any fun e =>
    e.ruleId == rid && e.deviceId == some did && e.status == "triggered" &&
      decide (now - fiveMinutes ≤ e.triggeredAt)

/-! ## Traffic-threshold checker (`check_traffic_threshold_alerts`) -/

/-- Loop body of `check_traffic_threshold_alerts` for one rule
(alert_checker.py lines 44–100): suppression check, rate resolution,
threshold comparison, and construction of the new `AlertHistory` row
(committed by the caller).  The branch at line 61 is Python
*truthiness* — `if rule.device_id:` is false both for `None` **and for
`0`**, so a rule with `device_id = 0` takes the whole-network branch
(and, since the local `device_id` is only assigned inside the device
branch, any event it creates records `device_id = None`).  A `None`
`threshold_bytes` raises `TypeError` at the comparison in Python, which
the per-rule `except` swallows after a rollback — observably: no event;
modelled as the early `none`. -/
def processTrafficRule (deviceTraffic : List DeviceTrafficRec)
    (latestTotal : Option TotalTrafficRec) (history : List AlertHistoryRec)
    (now : Int) (nextId : Nat) (rule : AlertRule) : Option AlertHistoryRec :=
  if hasRecentTriggered history rule.id now then none
  else
    match rule.thresholdBytes with
    | none => none
    | some threshold =>
      -- the `else` branch of `if rule.device_id:` (lines 77–84)
      let wholeNet : Option AlertHistoryRec :=
        match latestTotal with
        | none => none
        | some t =>
          if threshold ≤ t.downSpeedBytes + t.upSpeedBytes then
            some { id := nextId, ruleId := rule.id, alertType := "traffic_threshold",
                   severity := rule.severity, status := "triggered",
                   deviceId := none, triggeredAt := now }
          else none
      match rule.deviceId with
      | some did =>
        if did = 0 then wholeNet
        else
          match latestBy (·.timestamp) (deviceTraffic.filter (·.deviceId == did)) with
          | none => none
          | some t =>
            if threshold ≤ t.downSpeedBytes + t.upSpeedBytes then
              some { id := nextId, ruleId := rule.id, alertType := "traffic_threshold",
                     severity := rule.severity, status := "triggered",
                     deviceId := some did, triggeredAt := now }
            else none
      | none => wholeNet

/-- The rate a traffic rule evaluates, following the amended claim:
latest whole-network `down+up` when the rule's `device_id` is `NULL`
*or `0`* (Python truthiness), otherwise the named device's latest
`down+up`; `none` when the needed row is missing.  (Spec-side
description, compared against `processTrafficRule`.) -/
def specTrafficRate (deviceTraffic : List DeviceTrafficRec)
    (latestTotal : Option TotalTrafficRec) (rule : AlertRule) : Option Int :=
  match rule.deviceId with
  | some did =>
    if did = 0 then latestTotal.map fun t => t.downSpeedBytes + t.upSpeedBytes
    else
      (latestBy (·.timestamp) (deviceTraffic.filter (·.deviceId == did))).map
        fun t => t.downSpeedBytes + t.upSpeedBytes
  | none => latestTotal.map fun t => t.downSpeedBytes + t.upSpeedBytes

/-- Database state visible to the alert checker, plus the in-memory
dispatch queue of `notification_queue.py` (`_task_queue`) so that
"checker runs" and "queue contents" can be related. -/
structure DispatchTask where
  alertHistoryId : Nat
  methods : List String
deriving Repr, DecidableEq

/-- Combined state: the five tables the checker touches, the
autoincrement counter for `alert_history.id`, and the process-wide
dispatch queue. -/
structure SysState where
  rules : List AlertRule
  history : List AlertHistoryRec
  devices : List DeviceRec
  totalTraffic : List TotalTrafficRec
  deviceTraffic : List DeviceTrafficRec
  nextHistoryId : Nat
  dispatchQueue : List DispatchTask
deriving Repr, DecidableEq

/-- `check_traffic_threshold_alerts` (alert_checker.py lines 22–107):
filter enabled traffic rules, read the latest whole-network row once,
then per rule run the loop body and commit any created event.  The
source contains no call into `notification_queue` — the dispatch queue
field is untouched. -/
def check_traffic_threshold_alerts (now : Int) (s : SysState) : SysState :=
  let rules := s.rules.filter fun r => r.enabled && r.type == "traffic_threshold"
  if rules.isEmpty then s
  else
    let latestTotal := latestBy (·.timestamp) s.totalTraffic
    rules.foldl
      (fun acc r =>
        match processTrafficRule acc.deviceTraffic latestTotal acc.history now
            acc.nextHistoryId r with
        | none => acc
        | some ev =>
          { acc with history := acc.history ++ [ev],
                     nextHistoryId := acc.nextHistoryId + 1 })
      s

/-! ## Device-offline checker (`check_device_offline_alerts`) -/

/-- Inner device-loop body of `check_device_offline_alerts`
(alert_checker.py lines 145–185): per-device suppression check, latest
traffic row lookup (skip a device with no row), and the strict
`last_active_time < threshold_time` comparison, where
`threshold_time = now - minutes(offline_threshold_minutes)`. -/
def processOfflineDevice (deviceTraffic : List DeviceTrafficRec)
    (history : List AlertHistoryRec) (now : Int) (m : Int) (nextId : Nat)
    (rule : AlertRule) (device : DeviceRec) : Option AlertHistoryRec :=
  if hasRecentTriggeredForDevice history rule.id device.id now then none
  else
    match latestBy (·.timestamp) (deviceTraffic.filter (·.deviceId == device.id)) with
    | none => none
    | some t =>
      if t.timestamp < now - minutesToSecs m then
        some { id := nextId, ruleId := rule.id, alertType := "device_offline",
               severity := rule.severity, status := "triggered",
               deviceId := some device.id, triggeredAt := now }
      else none

/-- Per-rule body of `check_device_offline_alerts` (lines 137–194):
skip a rule whose `offline_threshold_minutes` is missing or
non-positive, then fold the device loop, committing per created
event. -/
def processOfflineRule (devices : List DeviceRec) (now : Int) (s : SysState)
    (rule : AlertRule) : SysState :=
  match rule.offlineThresholdMinutes with
  | none => s
  | some m =>
    if m ≤ 0 then s
    else
      devices.foldl
        (fun acc d =>
          match processOfflineDevice acc.deviceTraffic acc.history now m
              acc.nextHistoryId rule d with
          | none => acc
          | some ev =>
            { acc with history := acc.history ++ [ev],
                       nextHistoryId := acc.nextHistoryId + 1 })
        s

/-- `check_device_offline_alerts` (alert_checker.py lines 116–200). -/
def check_device_offline_alerts (now : Int) (s : SysState) : SysState :=
  let rules := s.rules.filter fun r => r.enabled && r.type == "device_offline"
  if rules.isEmpty then s
  else rules.foldl (processOfflineRule s.devices now) s

/-! ## Dispatch queue (`notification_queue.py`) -/

/-- `_task_queue = queue.Queue()` (notification_queue.py line 23): built
with no `maxsize` argument, i.e. Python `maxsize = 0`, which means
*unbounded*. -/
def taskQueueMaxsize : Nat := 0

/-- `Queue.put(item, block=False)`: raises `queue.Full` (here `.full`)
iff `0 < maxsize` and the queue already holds at least `maxsize` items;
otherwise appends. -/
inductive PutResult (τ : Type) where
  | ok (q : List τ)
  | full
deriving Repr, DecidableEq

/-- Non-blocking put of Python's `queue.Queue`. -/
def queuePut {τ : Type} (maxsize : Nat) (q : List τ) (x : τ) : PutResult τ :=
  if 0 < maxsize ∧ maxsize ≤ q.length then .full else .ok (q ++ [x])

/-- Observable outcome of one `send_notification_async` call. -/
inductive SendAsyncOutcome where
  | notRunning   -- `_is_running` false: warning printed, nothing queued
  | enqueued     -- task appended to `_task_queue`
  | droppedFull  -- `queue.Full` caught: warning printed, task discarded
deriving Repr, DecidableEq

/-- Result state of `send_notification_async`. -/
structure SendAsyncResult where
  queue : List DispatchTask
  outcome : SendAsyncOutcome
deriving Repr, DecidableEq

/-- `send_notification_async` (notification_queue.py lines 143–161):
check `_is_running`, then `_task_queue.put((id, methods), block=False)`
with `queue.Full` caught and logged. -/
def send_notification_async (isRunning : Bool) (q : List DispatchTask)
    (alertHistoryId : Nat) (methods : List String) : SendAsyncResult :=
  if !isRunning then ⟨q, .notRunning⟩
  else
    match queuePut taskQueueMaxsize q ⟨alertHistoryId, methods⟩ with
    | .ok q2 => ⟨q2, .enqueued⟩
    | .full => ⟨q, .droppedFull⟩

/-- The boundedness property claimed of the dispatch queue: some finite
capacity `C` at which every further enqueue (with workers running) drops
the task.  (Claim-side description, tested against the code's queue.) -/
def dispatchQueueBounded : Prop :=
  ∃ C : Nat, 0 < C ∧ ∀ (q : List DispatchTask) (i : Nat) (ms : List String),
    q.length = C → (send_notification_async true q i ms).outcome = .droppedFull

/-! ## Worker-pool shutdown (`stop_workers`, lines 123–140)

`stop_workers` sets `_is_running = False` and then calls
`_task_queue.join()` — with **no timeout** — before joining the worker
threads with `timeout=5`.  `Queue.join()` returns only when the queue's
`unfinished_tasks` counter reaches zero.  Once `_is_running` is false a
worker's `while _is_running` re-check fails, so no worker begins a new
`get`; the only remaining transitions are (a) a worker already blocked
inside `_task_queue.get(timeout=1)` (entered before the flag flipped)
still receiving one task, and (b) an in-flight task finishing and
calling `task_done()`.  `PoolState` records that situation. -/

/-- Pool/queue situation at and after the moment `stop_workers` clears
`_is_running`. -/
structure PoolState where
  pending : Nat    -- tasks sitting in `_task_queue`, not yet fetched
  inFlight : Nat   -- tasks fetched whose `task_done()` has not run yet
  getBudget : Nat  -- workers currently blocked inside `get(timeout=1)`
deriving Repr, DecidableEq

/-- Transitions possible after `_is_running` is false (see above): a
blocked `get` may still deliver one task; an in-flight task may finish.
No worker re-enters `get`, because the loop guard `while _is_running`
now fails. -/
inductive StopStep : PoolState → PoolState → Prop
  | fetch (s : PoolState) : 0 < s.getBudget → 0 < s.pending →
      StopStep s ⟨s.pending - 1, s.inFlight + 1, s.getBudget - 1⟩
  | finish (s : PoolState) : 0 < s.inFlight →
      StopStep s ⟨s.pending, s.inFlight - 1, s.getBudget⟩

/-- Reflexive-transitive closure of `StopStep`. -/
inductive StopReach : PoolState → PoolState → Prop
  | refl (s : PoolState) : StopReach s s
  | tail {a b c : PoolState} : StopReach a b → StopStep b c → StopReach a c

/-- `Queue.unfinished_tasks`: incremented by `put`, decremented by
`task_done()`; `Queue.join()` returns exactly when it is zero. -/
def unfinishedTasks (s : PoolState) : Nat := s.pending + s.inFlight

/-- `_task_queue.join()` inside `stop_workers` can return from the
situation `s₀` iff some reachable situation has no unfinished task. -/
def stopJoinCanReturn (s₀ : PoolState) : Prop :=
  ∃ s, StopReach s₀ s ∧ unfinishedTasks s = 0

/-! ## Worker loop (`_worker_thread`, lines 29–87) -/

/-- What one iteration of the worker loop did with its task.  On a task
whose `alert_history_id` resolves to no `AlertHistory` row the branch at
lines 53–56 logs, calls `task_done()` and `continue`s; the `continue`
first runs the `finally` block, whose second `task_done()` raises
`ValueError`, which the *outer* `except Exception` (line 84) catches and
logs — the `while` loop then continues, so the worker survives either
way. -/
inductive WorkerOutcome where
  | missingAlert                                        -- lines 53–56
  | sent (results : List (String × (Bool × String)))    -- lines 59–74
deriving Repr, DecidableEq

/-! ## Notification service (`notification_service.py`)

Network and SMTP effects are supplied by an oracle `NetEnv`.  Within a
single `send` call the request payload is fixed, so an outcome keyed by
the distinguishing endpoint (URL, or Telegram chat id) is faithful. -/

/-- What `requests.post(...)` + `response.raise_for_status()` +
`response.json()` can observably do for the WeCom / DingTalk loops:

* `.reqError msg` — a `requests.RequestException` (connection error,
  HTTP error status, or — in requests ≥ 2.27 — a JSON decode error),
  caught by the per-endpoint `except requests.RequestException`;
* `.okObj errcode errmsg` — 2xx with a JSON *object* body;
  `result.get('errcode')` is `errcode` (`none` = key absent) and
  `result.get('errmsg', '未知错误')` falls back on `none`;
* `.okNonObj msg` — 2xx with a body that is valid JSON but not an
  object (e.g. `"ok"` or `[1]`): `result.get(...)` raises
  `AttributeError(msg)`, which the per-endpoint handler does **not**
  catch; it propagates to the channel's outer `except Exception`. -/
inductive HttpResp where
  | reqError (msg : String)
  | okObj (errcode : Option Int) (errmsg : Option String)
  | okNonObj (msg : String)
deriving Repr, DecidableEq

/-- Effect oracle: per-endpoint delivery outcomes. -/
structure NetEnv where
  webhookPost : String → Option String   -- per URL; `none` = 2xx, `some e` = RequestException e
  telegramPost : String → Option String  -- per chat id (single bot URL; payload varies by chat)
  botPost : String → HttpResp            -- per WeCom/DingTalk webhook URL
  smtp : Option String                   -- `none` = mail sent; `some e` = formatted failure text

/-- `dict.get(key, default)` over the channel-config dictionary. -/
def cfgGet (config : List (String × String)) (key dflt : String) : String :=
  match config.find? (·.1 == key) with
  | some p => p.2
  | none => dflt

/-- ASCII whitespace for Python's `str.strip()`. -/
def pyIsSpace (c : Char) : Bool := c = ' ' || c = '\t' || c = '\n' || c = '\r'

/-- Python `str.strip()`. -/
def pyStrip (s : String) : String :=
  ⟨((s.data.dropWhile pyIsSpace).reverse.dropWhile pyIsSpace).reverse⟩

/-- Helper for `pySplitComma`: accumulate the current field. -/
def splitCommaAux : List Char → List Char → List String
  | [], acc => [⟨acc.reverse⟩]
  | c :: rest, acc =>
    if c = ',' then ⟨acc.reverse⟩ :: splitCommaAux rest [] else splitCommaAux rest (c :: acc)

/-- Python `str.split(',')` (note `''.split(',') == ['']`). -/
def pySplitComma (s : String) : List String := splitCommaAux s.data []

/-- Python `str.replace(';', ',')`. -/
def pyReplaceSemi (s : String) : String :=
  ⟨s.data.map fun c => if c = ';' then ',' else c⟩

/-- Python `str.lower()` (ASCII case fold, all the configs use). -/
def pyLower (s : String) : String :=
  ⟨s.data.map fun c => if 'A' ≤ c ∧ c ≤ 'Z' then Char.ofNat (c.toNat + 32) else c⟩

/-- `self.enabled = config.get('enabled', 'false').lower() == 'true'`
(notification_service.py line 36). -/
def channelEnabled (config : List (String × String)) : Bool :=
  pyLower (cfgGet config "enabled" "false") == "true"

/-- `[x.strip() for x in s.replace(';', ',').split(',') if x.strip()]`
— the endpoint-list parser shared by all multi-endpoint channels. -/
def parseEndpointList (s : String) : List String :=
  ((pySplitComma (pyReplaceSemi s)).map pyStrip).filter (· ≠ "")

/-- The Webhook per-URL loop (lines 150–164): returns
`(success_count, errors, posted)` where `posted` records every URL a
POST was attempted to, in order. -/
def webhookLoop (env : NetEnv) : List String → Nat × List String × List String
  | [] => (0, [], [])
  | u :: rest =>
    let r := webhookLoop env rest
    match env.webhookPost u with
    | none => (r.1 + 1, r.2.1, u :: r.2.2)
    | some e => (r.1, (u ++ ": " ++ e) :: r.2.1, u :: r.2.2)

/-- `WebhookNotificationChannel.send` (lines 118–174). -/
def webhookSend (env : NetEnv) (config : List (String × String)) : Bool × String :=
  if !channelEnabled config then (false, "Webhook通知未启用")
  else
    let urls := pyStrip (cfgGet config "urls" "")
    if urls = "" then (false, "Webhook URL不能为空")
    else
      let urlList := parseEndpointList urls
      if urlList = [] then (false, "Webhook URL列表不能为空")
      else
        let r := webhookLoop env urlList
        if r.1 = urlList.length then
          (true, "所有Webhook发送成功（" ++ toString r.1 ++ "个）")
        else if 0 < r.1 then
          (false, "部分Webhook发送失败: " ++ String.intercalate ", " r.2.1)
        else
          (false, "所有Webhook发送失败: " ++ String.intercalate ", " r.2.1)

/-- The Telegram per-chat loop (lines 209–223), same shape as the
Webhook loop but keyed by chat id. -/
def telegramLoop (env : NetEnv) : List String → Nat × List String × List String
  | [] => (0, [], [])
  | cid :: rest =>
    let r := telegramLoop env rest
    match env.telegramPost cid with
    | none => (r.1 + 1, r.2.1, cid :: r.2.2)
    | some e => (r.1, ("Chat " ++ cid ++ ": " ++ e) :: r.2.1, cid :: r.2.2)

/-- `TelegramNotificationChannel.send` (lines 180–233). -/
def telegramSend (env : NetEnv) (config : List (String × String)) : Bool × String :=
  if !channelEnabled config then (false, "Telegram通知未启用")
  else
    let botToken := pyStrip (cfgGet config "bot_token" "")
    let chatIdsStr := pyStrip (cfgGet config "chat_ids" "")
    if botToken = "" then (false, "Telegram Bot Token不能为空")
    else if chatIdsStr = "" then (false, "Telegram Chat IDs不能为空")
    else
      let chatIds := parseEndpointList chatIdsStr
      if chatIds = [] then (false, "Chat ID列表不能为空")
      else
        let r := telegramLoop env chatIds
        if r.1 = chatIds.length then
          (true, "所有Telegram消息发送成功（" ++ toString r.1 ++ "个）")
        else if 0 < r.1 then
          (false, "部分Telegram消息发送失败: " ++ String.intercalate ", " r.2.1)
        else
          (false, "所有Telegram消息发送失败: " ++ String.intercalate ", " r.2.1)

/-- Result of the WeCom/DingTalk per-URL loop: `posted` = URLs a POST
was attempted to; `aborted = some msg` when `result.get(...)` raised
`AttributeError(msg)` on a non-object JSON body (the loop stops there
and the exception reaches the channel's outer handler). -/
structure BotLoopResult where
  posted : List String
  aborted : Option String
  successCount : Nat
  errors : List String
deriving Repr, DecidableEq

/-- The WeCom loop (lines 270–285); the DingTalk loop (lines 334–349)
is byte-for-byte the same shape. -/
def botLoop (env : NetEnv) : List String → BotLoopResult
  | [] => ⟨[], none, 0, []⟩
  | u :: rest =>
    match env.botPost u with
    | .okNonObj msg => ⟨[u], some msg, 0, []⟩
    | .reqError e =>
      let r := botLoop env rest
      ⟨u :: r.posted, r.aborted, r.successCount, (u ++ ": " ++ e) :: r.errors⟩
    | .okObj ec em =>
      let r := botLoop env rest
      if ec = some 0 then ⟨u :: r.posted, r.aborted, r.successCount + 1, r.errors⟩
      else ⟨u :: r.posted, r.aborted, r.successCount,
            (u ++ ": " ++ em.getD "未知错误") :: r.errors⟩

/-- `WeComNotificationChannel.send` (lines 239–295). -/
def wecomSend (env : NetEnv) (config : List (String × String)) : Bool × String :=
  if !channelEnabled config then (false, "企业微信通知未启用")
  else
    let urls := pyStrip (cfgGet config "webhook_urls" "")
    if urls = "" then (false, "企业微信 Webhook URL不能为空")
    else
      let urlList := parseEndpointList urls
      if urlList = [] then (false, "企业微信 Webhook URL列表不能为空")
      else
        let r := botLoop env urlList
        match r.aborted with
        | some msg => (false, "发送企业微信消息失败: " ++ msg)
        | none =>
          if r.successCount = urlList.length then
            (true, "所有企业微信消息发送成功（" ++ toString r.successCount ++ "个）")
          else if 0 < r.successCount then
            (false, "部分企业微信消息发送失败: " ++ String.intercalate ", " r.errors)
          else
            (false, "所有企业微信消息发送失败: " ++ String.intercalate ", " r.errors)

/-- `DingTalkNotificationChannel.send` (lines 301–359). -/
def dingtalkSend (env : NetEnv) (config : List (String × String)) : Bool × String :=
  if !channelEnabled config then (false, "钉钉通知未启用")
  else
    let urls := pyStrip (cfgGet config "webhook_urls" "")
    if urls = "" then (false, "钉钉 Webhook URL不能为空")
    else
      let urlList := parseEndpointList urls
      if urlList = [] then (false, "钉钉 Webhook URL列表不能为空")
      else
        let r := botLoop env urlList
        match r.aborted with
        | some msg => (false, "发送钉钉消息失败: " ++ msg)
        | none =>
          if r.successCount = urlList.length then
            (true, "所有钉钉消息发送成功（" ++ toString r.successCount ++ "个）")
          else if 0 < r.successCount then
            (false, "部分钉钉消息发送失败: " ++ String.intercalate ", " r.errors)
          else
            (false, "所有钉钉消息发送失败: " ++ String.intercalate ", " r.errors)

/-- `EmailNotificationChannel.send` (lines 60–112).  A non-numeric
`smtp_port` raises `ValueError` at `int(...)`, landing in the outer
`except Exception`; the SMTP session outcome comes from the oracle (its
`some` case carries the already-formatted failure text of the
`SMTPException` / generic handlers). -/
def emailSend (env : NetEnv) (config : List (String × String)) : Bool × String :=
  if !channelEnabled config then (false, "邮件通知未启用")
  else
    match (cfgGet config "smtp_port" "587").toInt? with
    | none => (false, "发送邮件失败: invalid smtp_port")
    | some _ =>
      let smtpHost := pyStrip (cfgGet config "smtp_host" "")
      let username := pyStrip (cfgGet config "username" "")
      let password := pyStrip (cfgGet config "password" "")
      let fromAddr := pyStrip (cfgGet config "from" "")
      let toAddrs := pyStrip (cfgGet config "to" "")
      if smtpHost = "" ∨ username = "" ∨ password = "" ∨ fromAddr = "" ∨ toAddrs = "" then
        (false, "邮件配置不完整")
      else
        let toList := parseEndpointList toAddrs
        if toList = [] then (false, "收件人地址不能为空")
        else
          match env.smtp with
          | none => (true, "邮件发送成功")
          | some e => (false, e)

/-- The six channel instances `NotificationService._load_config`
registers (lines 378–433), each holding its config dictionary. -/
inductive Channel where
  | email (config : List (String × String))
  | webhook (config : List (String × String))
  | telegram (config : List (String × String))
  | wecom (config : List (String × String))
  | dingtalk (config : List (String × String))
  | page (config : List (String × String))
deriving Repr, DecidableEq

/-- Dynamic dispatch of `channel.send(...)`.  `PageNotificationChannel`
(lines 362–367) always succeeds without I/O.  The message/subject
arguments never influence a send's observable outcome within one call
(the payload is fixed per call), so they are not threaded through. -/
def Channel.send (env : NetEnv) : Channel → Bool × String
  | .email c => emailSend env c
  | .webhook c => webhookSend env c
  | .telegram c => telegramSend env c
  | .wecom c => wecomSend env c
  | .dingtalk c => dingtalkSend env c
  | .page _ => (true, "页面通知已记录")

/-- `NotificationService._load_config` (lines 378–433): the channel
registry built from the `notifications` section of the config file
(`nc`), in insertion order; `page` is always registered enabled. -/
def loadChannels (nc : List (String × String)) : List (String × Channel) :=
  [("email", .email
      [("enabled", cfgGet nc "email_enabled" "false"),
       ("smtp_host", cfgGet nc "email_smtp_host" ""),
       ("smtp_port", cfgGet nc "email_smtp_port" "587"),
       ("use_tls", cfgGet nc "email_use_tls" "true"),
       ("username", cfgGet nc "email_username" ""),
       ("password", cfgGet nc "email_password" ""),
       ("from", cfgGet nc "email_from" ""),
       ("to", cfgGet nc "email_to" "")]),
   ("webhook", .webhook
      [("enabled", cfgGet nc "webhook_enabled" "false"),
       ("urls", cfgGet nc "webhook_urls" ""),
       ("headers", cfgGet nc "webhook_headers" "{}")]),
   ("telegram", .telegram
      [("enabled", cfgGet nc "telegram_enabled" "false"),
       ("bot_token", cfgGet nc "telegram_bot_token" ""),
       ("chat_ids", cfgGet nc "telegram_chat_ids" "")]),
   ("wecom", .wecom
      [("enabled", cfgGet nc "wecom_enabled" "false"),
       ("webhook_urls", cfgGet nc "wecom_webhook_urls" "")]),
   ("dingtalk", .dingtalk
      [("enabled", cfgGet nc "dingtalk_enabled" "false"),
       ("webhook_urls", cfgGet nc "dingtalk_webhook_urls" "")]),
   ("page", .page [("enabled", "true")])]

/-- Python `dict` assignment `d[k] = v`: overwrite in place, else append
(insertion order preserved). -/
def dictInsert {α : Type} (m : List (String × α)) (k : String) (v : α) :
    List (String × α) :=
  if m.any (·.1 == k) then m.map (fun p => if p.1 == k then (k, v) else p)
  else m ++ [(k, v)]

/-- `self.channels` membership test / lookup (`method not in
self.channels` at line 561 and `self.channels[method]` at line 565). -/
def lookupChannel (channels : List (String × Channel)) (m : String) : Option Channel :=
  (channels.find? (·.1 == m)).map (·.2)

/-- `NotificationService.send_notification` (lines 541–581): one result
entry per requested channel kind, `(False, unsupported)` for a kind with
no registered channel, `channel.send`'s result otherwise. -/
def send_notification (env : NetEnv) (channels : List (String × Channel))
    (methods : List String) : List (String × (Bool × String)) :=
  methods.foldl
    (fun results m =>
      match lookupChannel channels m with
      | none => dictInsert results m (false, "不支持的通知渠道: " ++ m)
      | some ch => dictInsert results m (ch.send env))
    []

/-- Lookup in the result dictionary of `send_notification`. -/
def lookupResult (results : List (String × (Bool × String))) (m : String) :
    Option (Bool × String) :=
  (results.find? (·.1 == m)).map (·.2)

/-! ## Worker body over one task (`_worker_thread` lines 46–82) -/

/-- What one worker iteration did with the task it fetched. -/
structure WorkerIterResult where
  outcome : WorkerOutcome
  sendCalls : List (Nat × List String)  -- invocations of `NotificationService.send_notification`
  taskDoneCalls : Nat                   -- times `task_done()` ran for this task
deriving Repr, DecidableEq

/-- `AlertHistory.query.get(alert_history_id)`. -/
def lookupAlert (history : List AlertHistoryRec) (i : Nat) : Option AlertHistoryRec :=
  history.find? (·.id == i)

/-- The worker's handling of one fetched task (lines 46–82).  When the
alert id resolves to no row: log + `task_done()` + `continue`, where the
`continue` first runs `finally`, whose second `task_done()` raises
`ValueError` — caught by the outer `except` (line 84); the loop then
proceeds to the next task either way. -/
def workerProcessTask (env : NetEnv) (nc : List (String × String))
    (history : List AlertHistoryRec) (task : DispatchTask) : WorkerIterResult :=
  match lookupAlert history task.alertHistoryId with
  | none => ⟨.missingAlert, [], 2⟩
  | some _ =>
    ⟨.sent (send_notification env (loadChannels nc) task.methods),
     [(task.alertHistoryId, task.methods)], 1⟩

/-- The worker loop over a sequence of fetched tasks: every exception
path of the body is caught inside the `while` loop, so each task is
processed in turn regardless of earlier failures. -/
def workerRun (env : NetEnv) (nc : List (String × String))
    (history : List AlertHistoryRec) (tasks : List DispatchTask) :
    List WorkerIterResult :=
  tasks.map (workerProcessTask env nc history)

/-! ## Evaluator / management-API interleaving

Transition system over the `alert_history` table for the suppression
invariant: evaluator trigger steps guarded exactly by the suppression
queries of `alert_checker.py`, interleaved with the one status
transition the management API implements —
`POST /history/<id>/acknowledge` (alert_api.py lines 664–723), which
sets `status = 'acknowledged'` on an existing row.  (No resolve endpoint
exists anywhere in the source.)  Telemetry values (rates, last-seen
instants) are free inputs of the trigger steps; the wall clock only
moves forward. -/

/-- Store + wall-clock state for the interleaving model. -/
structure EvState where
  events : List AlertHistoryRec
  clock : Int
deriving Repr, DecidableEq

/-- `alert.status = 'acknowledged'` on row `i` (alert_api.py line 710). -/
def ackEvent (events : List AlertHistoryRec) (i : Nat) : List AlertHistoryRec :=
  events.map fun e => if e.id == i then { e with status := "acknowledged" } else e

/-- One interleaved step at wall-clock instant `now ≥ clock`. -/
inductive EvStep : EvState → EvState → Prop
  | evalTraffic (s : EvState) (rule : AlertRule) (rate threshold now : Int) (nid : Nat) :
      s.clock ≤ now →
      rule.enabled = true → rule.type = "traffic_threshold" →
      rule.thresholdBytes = some threshold → threshold ≤ rate →
      hasRecentTriggered s.events rule.id now = false →
      EvStep s ⟨s.events ++
          [{ id := nid, ruleId := rule.id, alertType := "traffic_threshold",
             severity := rule.severity, status := "triggered",
             deviceId := rule.deviceId, triggeredAt := now }], now⟩
  | evalOffline (s : EvState) (rule : AlertRule) (m lastActive now : Int)
      (did nid : Nat) :
      s.clock ≤ now →
      rule.enabled = true → rule.type = "device_offline" →
      rule.offlineThresholdMinutes = some m → 0 < m →
      lastActive < now - minutesToSecs m →
      hasRecentTriggeredForDevice s.events rule.id did now = false →
      EvStep s ⟨s.events ++
          [{ id := nid, ruleId := rule.id, alertType := "device_offline",
             severity := rule.severity, status := "triggered",
             deviceId := some did, triggeredAt := now }], now⟩
  | ack (s : EvState) (i : Nat) (now : Int) :
      s.clock ≤ now →
      (∃ e ∈ s.events, e.id = i) →
      EvStep s ⟨ackEvent s.events i, now⟩

/-- States reachable from the empty store. -/
inductive EvReachable : EvState → Prop
  | init : EvReachable ⟨[], 0⟩
  | step {s s2 : EvState} : EvReachable s → EvStep s s2 → EvReachable s2

/-- The events of the `(rid, did)` pair whose status lies in
`{triggered, acknowledged}` and whose `triggered_at` is within the last
five minutes of the state's clock — the population the claimed
invariant bounds. -/
def openWindowEvents (s : EvState) (rid : Nat) (did : Option Nat) :
    List AlertHistoryRec :=
  s.events.filter fun e =>
    e.ruleId == rid && e.deviceId == did &&
      (e.status == "triggered" || e.status == "acknowledged") &&
      decide (s.clock - fiveMinutes ≤ e.triggeredAt)

/-- Same population restricted to status `triggered` only. -/
def triggeredWindowEvents (s : EvState) (rid : Nat) (did : Option Nat) :
    List AlertHistoryRec :=
  s.events.filter fun e =>
    e.ruleId == rid && e.deviceId == did && e.status == "triggered" &&
      decide (s.clock - fiveMinutes ≤ e.triggeredAt)

/-- The claimed invariant: at most one open (triggered-or-acknowledged)
event per `(rule_id, device_id)` pair in the five-minute window. -/
def claimedPairInvariant (s : EvState) : Prop :=
  ∀ (rid : Nat) (did : Option Nat), (openWindowEvents s rid did).length ≤ 1

/-- A benign concrete oracle for witness instantiations: every network
call succeeds, SMTP succeeds. -/
def sampleEnv : NetEnv :=
  ⟨fun _ => none, fun _ => none, fun _ => .okObj (some 0) none, none⟩

/-- The value `send_notification` stores for a requested kind `m` (the
per-iteration value of the loop at lines 560–579): the unsupported-kind
entry when no channel is registered under `m`, the channel's send result
otherwise. -/
def expectedEntry (env : NetEnv) (channels : List (String × Channel)) (m : String) :
    Bool × String :=
  match lookupChannel channels m with
  | none => (false, "不支持的通知渠道: " ++ m)
  | some ch => ch.send env

/-! ## Theorems -/

/-! ### Dictionary lemmas for `send_notification` -/

theorem find?_overwrite_self {α : Type} (k : String) (v : α) :
    ∀ m : List (String × α), m.any (·.1 == k) = true →
      (m.map fun p => if p.1 == k then (k, v) else p).find? (·.1 == k) = some (k, v)
  | [], h => by simp at h
  | p :: rest, h => by
    by_cases hp : p.1 = k
    · simp [List.find?_cons, hp]
    · have hrest : rest.any (·.1 == k) = true := by
        simp only [List.any_cons, Bool.or_eq_true] at h
        rcases h with h | h
        · exact absurd (by simpa using h) hp
        · exact h
      simpa [List.find?_cons, hp] using find?_overwrite_self k v rest hrest

theorem find?_overwrite_ne {α : Type} (k x : String) (v : α) (hx : x ≠ k) :
    ∀ m : List (String × α),
      (m.map fun p => if p.1 == k then (k, v) else p).find? (·.1 == x) =
        m.find? (·.1 == x)
  | [] => rfl
  | p :: rest => by
    by_cases hp : p.1 = k
    · have hkx : ¬ ((k, v).1 == x) = true := by simpa using fun h => hx h.symm
      have hpx : ¬ (p.1 == x) = true := by simpa [hp] using fun h => hx h.symm
      simpa [List.find?_cons, hp, hkx, hpx] using find?_overwrite_ne k x v hx rest
    · by_cases hpx : p.1 = x
      · simp [List.find?_cons, hp, hpx, hx]
      · simpa [List.find?_cons, hp, hpx] using find?_overwrite_ne k x v hx rest

theorem dictInsert_keys {α : Type} (m : List (String × α)) (k : String) (v : α) :
    (dictInsert m k v).map Prod.fst =
      if m.any (·.1 == k) then m.map Prod.fst else m.map Prod.fst ++ [k] := by
  unfold dictInsert
  split
  · next h =>
    simp only [if_pos h, List.map_map]
    refine List.map_congr_left fun p _ => ?_
    by_cases hp : p.1 = k
    · simp [hp]
    · simp [hp]
  · next h => simp [h]

theorem dictInsert_keys_nodup {α : Type} {m : List (String × α)} {k : String} {v : α}
    (h : (m.map Prod.fst).Nodup) : ((dictInsert m k v).map Prod.fst).Nodup := by
  rw [dictInsert_keys]
  split
  · exact h
  · next hany =>
    refine h.append (List.nodup_singleton k) ?_
    intro a ha hk
    simp only [List.mem_singleton] at hk
    simp only [List.mem_map] at ha
    obtain ⟨p, hp, hpa⟩ := ha
    have hfalse : ¬ (p.1 == k) = true :=
      List.any_eq_false.mp (Bool.not_eq_true _ ▸ hany) p hp
    exact hfalse (by simp [hpa, hk])

theorem mem_dictInsert_keys {α : Type} (m : List (String × α)) (k : String) (v : α)
    (a : String) :
    a ∈ (dictInsert m k v).map Prod.fst ↔ a = k ∨ a ∈ m.map Prod.fst := by
  rw [dictInsert_keys]
  split
  · next hany =>
    simp only [List.any_eq_true] at hany
    obtain ⟨p, hp, hpk⟩ := hany
    have hpk2 : p.1 = k := by simpa using hpk
    constructor
    · exact Or.inr
    · rintro (rfl | h)
      · exact List.mem_map.mpr ⟨p, hp, hpk2⟩
      · exact h
  · simp [or_comm]

theorem lookupResult_dictInsert_self (m : List (String × (Bool × String)))
    (k : String) (v : Bool × String) : lookupResult (dictInsert m k v) k = some v := by
  unfold lookupResult dictInsert
  split
  · next h => rw [find?_overwrite_self k v m h]; rfl
  · next h =>
    have hfind : m.find? (·.1 == k) = none := by
      refine List.find?_eq_none.mpr fun p hp => ?_
      exact List.any_eq_false.mp (Bool.not_eq_true _ ▸ h) p hp
    rw [List.find?_append, hfind]
    simp

theorem lookupResult_dictInsert_ne (m : List (String × (Bool × String)))
    (k x : String) (v : Bool × String) (hx : x ≠ k) :
    lookupResult (dictInsert m k v) x = lookupResult m x := by
  unfold lookupResult dictInsert
  split
  · rw [find?_overwrite_ne k x v hx m]
  · rw [List.find?_append]
    have hkx : (k == x) = false := by simpa using Ne.symm hx
    have hnone : ([(k, v)].find? (·.1 == x)) = none := by
      simp [List.find?_cons, hkx]
    rw [hnone]
    cases m.find? (·.1 == x) <;> rfl

theorem send_notification_eq_fold (env : NetEnv) (channels : List (String × Channel))
    (methods : List String) :
    send_notification env channels methods =
      methods.foldl (fun r m => dictInsert r m (expectedEntry env channels m)) [] := by
  unfold send_notification expectedEntry
  congr 1
  funext r m
  cases lookupChannel channels m <;> rfl

theorem foldDict_nodup (f : String → Bool × String) :
    ∀ (methods : List String) (acc : List (String × (Bool × String))),
      (acc.map Prod.fst).Nodup →
      ((methods.foldl (fun r m => dictInsert r m (f m)) acc).map Prod.fst).Nodup
  | [], _, h => h
  | _ :: rest, _, h => foldDict_nodup f rest _ (dictInsert_keys_nodup h)

theorem foldDict_mem (f : String → Bool × String) :
    ∀ (methods : List String) (acc : List (String × (Bool × String))) (a : String),
      (a ∈ (methods.foldl (fun r m => dictInsert r m (f m)) acc).map Prod.fst ↔
        a ∈ acc.map Prod.fst ∨ a ∈ methods)
  | [], acc, a => by simp
  | m :: rest, acc, a => by
    rw [List.foldl_cons, foldDict_mem f rest _ a, mem_dictInsert_keys, List.mem_cons]
    tauto

theorem foldDict_lookup_preserve (f : String → Bool × String) :
    ∀ (methods : List String) (acc : List (String × (Bool × String))) (x : String),
      lookupResult acc x = some (f x) →
      lookupResult (methods.foldl (fun r m => dictInsert r m (f m)) acc) x = some (f x)
  | [], _, _, h => h
  | m :: rest, acc, x, h => by
    rw [List.foldl_cons]
    by_cases hxm : x = m
    · subst hxm
      exact foldDict_lookup_preserve f rest _ x (lookupResult_dictInsert_self acc x (f x))
    · exact foldDict_lookup_preserve f rest _ x
        ((lookupResult_dictInsert_ne acc m x (f m) hxm).trans h)

theorem foldDict_lookup_mem (f : String → Bool × String) :
    ∀ (methods : List String) (acc : List (String × (Bool × String))) (x : String),
      x ∈ methods →
      lookupResult (methods.foldl (fun r m => dictInsert r m (f m)) acc) x = some (f x)
  | [], _, x, h => absurd h (List.not_mem_nil x)
  | m :: rest, acc, x, h => by
    rw [List.foldl_cons]
    by_cases hxr : x ∈ rest
    · exact foldDict_lookup_mem f rest _ x hxr
    · have hxm : x = m := by
        rcases List.mem_cons.mp h with h1 | h2
        · exact h1
        · exact absurd h2 hxr
      subst hxm
      exact foldDict_lookup_preserve f rest _ x (lookupResult_dictInsert_self acc x (f x))

/-! ### Fan-out loop characterizations -/

/-- C1: on a telemetry cycle where an enabled traffic rule triggers with
no suppressing event, `check_traffic_threshold_alerts` persists exactly
one `AlertHistory` row with status `'triggered'` — but it enqueues
nothing: the source contains no call to `send_notification_async`
(which has no caller anywhere in the repository), so the dispatch queue
stays empty and the event is never referenced by any dispatch task.
This evaluates the code at the claim's failing input. -/
theorem claim_C1 :
    (check_traffic_threshold_alerts 60
      { rules := [{ id := 1, type := "traffic_threshold", enabled := true,
                    thresholdBytes := some 1000000, deviceId := none,
                    offlineThresholdMinutes := none,
                    notificationMethods := ["page", "webhook"], severity := "warning" }],
        history := [], devices := [],
        totalTraffic := [⟨0, 700000, 500000⟩], deviceTraffic := [],
        nextHistoryId := 1, dispatchQueue := [] }).history =
      [{ id := 1, ruleId := 1, alertType := "traffic_threshold", severity := "warning",
         status := "triggered", deviceId := none, triggeredAt := 60 }] ∧
    (check_traffic_threshold_alerts 60
      { rules := [{ id := 1, type := "traffic_threshold", enabled := true,
                    thresholdBytes := some 1000000, deviceId := none,
                    offlineThresholdMinutes := none,
                    notificationMethods := ["page", "webhook"], severity := "warning" }],
        history := [], devices := [],
        totalTraffic := [⟨0, 700000, 500000⟩], deviceTraffic := [],
        nextHistoryId := 1, dispatchQueue := [] }).dispatchQueue = [] := by
  constructor <;> rfl

/-- C2 counterexample: the dispatch queue is *not* bounded — for any
claimed capacity `C`, an enqueue against a queue already holding `C`
tasks still appends instead of dropping (`queue.Queue()` is built with
`maxsize = 0`, i.e. infinite, so its `queue.Full` branch is dead). -/
theorem claim_C2_counterexample : ¬ dispatchQueueBounded := by
  rintro ⟨C, -, h⟩
  have hC := h (List.replicate C ⟨0, []⟩) 0 [] (by simp)
  simp [send_notification_async, queuePut, taskQueueMaxsize] at hC

/-- C2 as amended: the queue is unbounded; with workers running an
enqueue always appends the task, never blocks the caller, and never
drops (`droppedFull` is unreachable for every running-state); no
dropped-task counter exists in the source. -/
theorem claim_C2 (q : List DispatchTask) (i : Nat) (ms : List String) :
    (send_notification_async true q i ms).queue = q ++ [⟨i, ms⟩] ∧
    (send_notification_async true q i ms).outcome = .enqueued ∧
    ∀ b : Bool, (send_notification_async b q i ms).outcome ≠ .droppedFull := by
  refine ⟨rfl, rfl, ?_⟩
  intro b
  cases b <;> simp [send_notification_async, queuePut, taskQueueMaxsize]

/-- C5 counterexample: a device whose latest traffic row is exactly
`offline_threshold_minutes` old.  The claim (`now - last >= threshold`
triggers) demands an event; the code's strict
`last_active_time < threshold_time` creates none. -/
theorem claim_C5_counterexample :
    processOfflineDevice [⟨3, 98200, 0, 0⟩] [] 100000 30 1
        { id := 4, type := "device_offline", enabled := true, thresholdBytes := none,
          deviceId := none, offlineThresholdMinutes := some 30,
          notificationMethods := ["page"], severity := "warning" }
        ⟨3, none, "aa:bb:cc:dd:ee:ff"⟩ = none ∧
    minutesToSecs 30 ≤ (100000 : Int) - 98200 := by
  constructor <;> decide

/-- C5 as amended: for a device not suppressed by a recent alert, an
event is created iff the device has a latest traffic row and
`now - latest.timestamp` is *strictly greater* than the offline
threshold; a device with no traffic row ever is skipped. -/
theorem claim_C5 (deviceTraffic : List DeviceTrafficRec)
    (history : List AlertHistoryRec) (now m : Int) (nextId : Nat)
    (rule : AlertRule) (device : DeviceRec)
    (hsup : hasRecentTriggeredForDevice history rule.id device.id now = false) :
    ((processOfflineDevice deviceTraffic history now m nextId rule device).isSome ↔
      ∃ t, latestBy (·.timestamp) (deviceTraffic.filter (·.deviceId == device.id)) = some t ∧
        minutesToSecs m < now - t.timestamp) ∧
    (latestBy (·.timestamp) (deviceTraffic.filter (·.deviceId == device.id)) = none →
      processOfflineDevice deviceTraffic history now m nextId rule device = none) := by
  unfold processOfflineDevice
  rw [hsup]
  simp only [Bool.false_eq_true, if_false]
  constructor
  · cases hlb : latestBy (·.timestamp) (deviceTraffic.filter (·.deviceId == device.id)) with
    | none => simp
    | some t =>
      constructor
      · intro hsome
        refine ⟨t, rfl, ?_⟩
        by_cases hlt : t.timestamp < now - minutesToSecs m
        · omega
        · simp [hlt] at hsome
      · rintro ⟨t2, ht2, hgt⟩
        cases ht2
        have : t.timestamp < now - minutesToSecs m := by omega
        simp [this]
  · intro hnone
    rw [hnone]

/-- C5 witness: an unsuppressed device 31 minutes stale against a
30-minute rule is reported offline, and a device with no traffic row is
skipped. -/
theorem claim_C5_witness :
    (processOfflineDevice [⟨3, 98140, 0, 0⟩] [] 100000 30 1
        { id := 4, type := "device_offline", enabled := true, thresholdBytes := none,
          deviceId := none, offlineThresholdMinutes := some 30,
          notificationMethods := ["page"], severity := "warning" }
        ⟨3, none, "aa:bb:cc:dd:ee:ff"⟩).isSome ∧
    processOfflineDevice [] [] 100000 30 1
        { id := 4, type := "device_offline", enabled := true, thresholdBytes := none,
          deviceId := none, offlineThresholdMinutes := some 30,
          notificationMethods := ["page"], severity := "warning" }
        ⟨3, none, "aa:bb:cc:dd:ee:ff"⟩ = none := by
  constructor
  · exact (claim_C5 [⟨3, 98140, 0, 0⟩] [] 100000 30 1
      { id := 4, type := "device_offline", enabled := true, thresholdBytes := none,
        deviceId := none, offlineThresholdMinutes := some 30,
        notificationMethods := ["page"], severity := "warning" }
      ⟨3, none, "aa:bb:cc:dd:ee:ff"⟩ (by decide)).1.mpr
      ⟨⟨3, 98140, 0, 0⟩, by decide, by decide⟩
  · exact (claim_C5 [] [] 100000 30 1
      { id := 4, type := "device_offline", enabled := true, thresholdBytes := none,
        deviceId := none, offlineThresholdMinutes := some 30,
        notificationMethods := ["page"], severity := "warning" }
      ⟨3, none, "aa:bb:cc:dd:ee:ff"⟩ (by decide)).2 (by decide)

/-- C6 counterexample: a rule naming `device_id = 0` — creatable through
the management API, which does not validate the id — whose named device
has **no traffic record at all** (the device-traffic table is empty).
The claim says such a rule is skipped with no trigger; the code's
`if rule.device_id:` is Python truthiness, false at `0`, so it instead
evaluates the whole-network rate (13 ≥ threshold 10) and creates an
event — one that moreover records `device_id = None`, not `0`. -/
theorem claim_C6_counterexample :
    latestBy (·.timestamp)
      (List.filter (·.deviceId == 0) ([] : List DeviceTrafficRec)) = none ∧
    processTrafficRule [] (some ⟨0, 8, 5⟩) [] 100 1
        { id := 3, type := "traffic_threshold", enabled := true, thresholdBytes := some 10,
          deviceId := some 0, offlineThresholdMinutes := none,
          notificationMethods := [], severity := "info" } =
      some { id := 1, ruleId := 3, alertType := "traffic_threshold", severity := "info",
             status := "triggered", deviceId := none, triggeredAt := 100 } := by
  constructor <;> decide

/-- C6 as amended: for an unsuppressed traffic rule whose threshold is
present, the per-rule body equals the amended behavior under Python
truthiness: the rate is the latest whole-network `down+up` when
`device_id` is `NULL` *or `0`*, and the named device's latest `down+up`
for a nonzero `device_id` (skipping the rule when the needed row is
missing); a `triggered` event is created iff `threshold ≤ rate`, and it
records the device id only when the device branch was taken. -/
theorem claim_C6 (deviceTraffic : List DeviceTrafficRec)
    (latestTotal : Option TotalTrafficRec) (history : List AlertHistoryRec)
    (now : Int) (nextId : Nat) (rule : AlertRule) (threshold : Int)
    (hsup : hasRecentTriggered history rule.id now = false)
    (hT : rule.thresholdBytes = some threshold) :
    processTrafficRule deviceTraffic latestTotal history now nextId rule =
      match specTrafficRate deviceTraffic latestTotal rule with
      | none => none
      | some rate =>
        if threshold ≤ rate then
          some { id := nextId, ruleId := rule.id, alertType := "traffic_threshold",
                 severity := rule.severity, status := "triggered",
                 deviceId := match rule.deviceId with
                   | some did => if did = 0 then none else some did
                   | none => none,
                 triggeredAt := now }
        else none := by
  unfold processTrafficRule specTrafficRate
  rw [hsup, hT]
  simp only [Bool.false_eq_true, if_false]
  cases hd : rule.deviceId with
  | none =>
    cases latestTotal with
    | none => rfl
    | some t => by_cases hle : threshold ≤ t.downSpeedBytes + t.upSpeedBytes <;> simp [hle, hd]
  | some did =>
    by_cases h0 : did = 0
    · subst h0
      cases latestTotal with
      | none => simp [hd]
      | some t =>
        by_cases hle : threshold ≤ t.downSpeedBytes + t.upSpeedBytes <;> simp [hle, hd]
    · cases hlb : latestBy (·.timestamp) (deviceTraffic.filter (·.deviceId == did)) with
      | none => simp [hlb, h0]
      | some t =>
        by_cases hle : threshold ≤ t.downSpeedBytes + t.upSpeedBytes <;>
          simp [hlb, hle, h0]

/-- C6 witness: a whole-network rule (no device) with threshold 12
against a snapshot totalling 15 creates the event; the same rule at
threshold 16 does not; a rule naming nonzero device 5 uses that device's
latest row and records `device_id = 5` on the event. -/
theorem claim_C6_witness :
    processTrafficRule [] (some ⟨0, 10, 5⟩) [] 100 1
        { id := 2, type := "traffic_threshold", enabled := true, thresholdBytes := some 12,
          deviceId := none, offlineThresholdMinutes := none,
          notificationMethods := [], severity := "info" } =
      some { id := 1, ruleId := 2, alertType := "traffic_threshold", severity := "info",
             status := "triggered", deviceId := none, triggeredAt := 100 } ∧
    processTrafficRule [] (some ⟨0, 10, 5⟩) [] 100 1
        { id := 2, type := "traffic_threshold", enabled := true, thresholdBytes := some 16,
          deviceId := none, offlineThresholdMinutes := none,
          notificationMethods := [], severity := "info" } = none ∧
    processTrafficRule [⟨5, 0, 7, 6⟩] (some ⟨0, 10, 5⟩) [] 100 1
        { id := 2, type := "traffic_threshold", enabled := true, thresholdBytes := some 12,
          deviceId := some 5, offlineThresholdMinutes := none,
          notificationMethods := [], severity := "info" } =
      some { id := 1, ruleId := 2, alertType := "traffic_threshold", severity := "info",
             status := "triggered", deviceId := some 5, triggeredAt := 100 } := by
  refine ⟨?_, ?_, ?_⟩
  · exact (claim_C6 [] (some ⟨0, 10, 5⟩) [] 100 1
      { id := 2, type := "traffic_threshold", enabled := true, thresholdBytes := some 12,
        deviceId := none, offlineThresholdMinutes := none,
        notificationMethods := [], severity := "info" } 12 (by decide) rfl).trans (by decide)
  · exact (claim_C6 [] (some ⟨0, 10, 5⟩) [] 100 1
      { id := 2, type := "traffic_threshold", enabled := true, thresholdBytes := some 16,
        deviceId := none, offlineThresholdMinutes := none,
        notificationMethods := [], severity := "info" } 16 (by decide) rfl).trans (by decide)
  · exact (claim_C6 [⟨5, 0, 7, 6⟩] (some ⟨0, 10, 5⟩) [] 100 1
      { id := 2, type := "traffic_threshold", enabled := true, thresholdBytes := some 12,
        deviceId := some 5, offlineThresholdMinutes := none,
        notificationMethods := [], severity := "info" } 12 (by decide) rfl).trans (by decide)

/-- C9: a `send_notification_async` call while `_is_running` is false
returns normally with the queue unchanged — the task never enters the
queue, so it can never be delivered, even if workers start later (a
worker only ever processes tasks present in the queue). -/
theorem claim_C9 (q : List DispatchTask) (i : Nat) (ms : List String) :
    send_notification_async false q i ms = ⟨q, .notRunning⟩ ∧
    ((⟨i, ms⟩ : DispatchTask) ∉ q →
      (⟨i, ms⟩ : DispatchTask) ∉ (send_notification_async false q i ms).queue) :=
  ⟨rfl, fun h => h⟩

/-- C9 witness at a concrete call. -/
theorem claim_C9_witness :
    send_notification_async false [] 7 ["page"] = ⟨[], .notRunning⟩ ∧
    (⟨7, ["page"]⟩ : DispatchTask) ∉ (send_notification_async false [] 7 ["page"]).queue :=
  ⟨(claim_C9 [] 7 ["page"]).1, (claim_C9 [] 7 ["page"]).2 (by simp)⟩

/-- C8: a task whose `alert_history_id` resolves to no `AlertHistory`
row is logged and dropped — `NotificationService.send_notification` is
never invoked for it — and the worker goes on: running the loop over
`[bad, good]` processes the good task exactly as it would alone.  (The
failure stays inside the loop body: the extra `task_done()` of the
missing-row branch raises `ValueError` in the `finally` block, which the
outer `except Exception` at line 84 catches; `taskDoneCalls = 2` records
that double call.) -/
theorem claim_C8 (env : NetEnv) (nc : List (String × String))
    (history : List AlertHistoryRec) (badId : Nat) (ms : List String)
    (good : DispatchTask)
    (hbad : lookupAlert history badId = none) :
    (workerProcessTask env nc history ⟨badId, ms⟩).sendCalls = [] ∧
    (workerProcessTask env nc history ⟨badId, ms⟩).outcome = .missingAlert ∧
    workerRun env nc history [⟨badId, ms⟩, good] =
      [workerProcessTask env nc history ⟨badId, ms⟩,
       workerProcessTask env nc history good] ∧
    (∀ a, lookupAlert history good.alertHistoryId = some a →
      workerProcessTask env nc history good =
        ⟨.sent (send_notification env (loadChannels nc) good.methods),
         [(good.alertHistoryId, good.methods)], 1⟩) := by
  refine ⟨?_, ?_, rfl, ?_⟩
  · simp [workerProcessTask, hbad]
  · simp [workerProcessTask, hbad]
  · intro a ha
    simp [workerProcessTask, ha]

/-- C8 witness: bad id 99 against a store holding only row 1; the
follow-up task for row 1 is still processed. -/
theorem claim_C8_witness :
    (workerProcessTask sampleEnv []
        [{ id := 1, ruleId := 1, alertType := "traffic_threshold", severity := "warning",
           status := "triggered", deviceId := none, triggeredAt := 0 }]
        ⟨99, ["page"]⟩).sendCalls = [] ∧
    workerProcessTask sampleEnv []
        [{ id := 1, ruleId := 1, alertType := "traffic_threshold", severity := "warning",
           status := "triggered", deviceId := none, triggeredAt := 0 }]
        ⟨1, ["page"]⟩ =
      ⟨.sent (send_notification sampleEnv (loadChannels []) ["page"]),
       [(1, ["page"])], 1⟩ := by
  constructor
  · exact (claim_C8 sampleEnv []
      [{ id := 1, ruleId := 1, alertType := "traffic_threshold", severity := "warning",
         status := "triggered", deviceId := none, triggeredAt := 0 }]
      99 ["page"] ⟨1, ["page"]⟩ (by decide)).1
  · exact (claim_C8 sampleEnv []
      [{ id := 1, ruleId := 1, alertType := "traffic_threshold", severity := "warning",
         status := "triggered", deviceId := none, triggeredAt := 0 }]
      99 ["page"] ⟨1, ["page"]⟩ (by decide)).2.2.2
      { id := 1, ruleId := 1, alertType := "traffic_threshold", severity := "warning",
        status := "triggered", deviceId := none, triggeredAt := 0 } (by decide)

/-- C10: `send_notification` is total and returns a result dictionary
with exactly one entry per requested kind: its keys are exactly the
requested kinds with no duplicates, a kind with no registered channel
maps to `(false, unsupported-kind detail)`, and every requested kind —
including those after an unsupported one — maps to its channel's send
result. -/
theorem claim_C10 (env : NetEnv) (nc : List (String × String)) (methods : List String) :
    ((send_notification env (loadChannels nc) methods).map Prod.fst).Nodup ∧
    (∀ m, m ∈ (send_notification env (loadChannels nc) methods).map Prod.fst ↔
      m ∈ methods) ∧
    (∀ m ∈ methods,
      lookupResult (send_notification env (loadChannels nc) methods) m =
        some (expectedEntry env (loadChannels nc) m)) ∧
    (∀ m ∈ methods, lookupChannel (loadChannels nc) m = none →
      lookupResult (send_notification env (loadChannels nc) methods) m =
        some (false, "不支持的通知渠道: " ++ m)) := by
  rw [send_notification_eq_fold]
  refine ⟨foldDict_nodup _ methods [] (by simp), ?_, ?_, ?_⟩
  · intro m
    rw [foldDict_mem]
    simp
  · intro m hm
    exact foldDict_lookup_mem _ methods [] m hm
  · intro m hm hnone
    rw [foldDict_lookup_mem _ methods [] m hm]
    unfold expectedEntry
    rw [hnone]

/-- C10 witness: kinds `["page", "sms"]` — `sms` has no registered
channel and yields the unsupported entry, `page` still succeeds, keys
are exactly the requested kinds. -/
theorem claim_C10_witness :
    ((send_notification sampleEnv (loadChannels []) ["page", "sms"]).map Prod.fst).Nodup ∧
    lookupResult (send_notification sampleEnv (loadChannels []) ["page", "sms"]) "sms" =
      some (false, "不支持的通知渠道: sms") ∧
    lookupResult (send_notification sampleEnv (loadChannels []) ["page", "sms"]) "page" =
      some (true, "页面通知已记录") := by
  refine ⟨(claim_C10 sampleEnv [] ["page", "sms"]).1, ?_, ?_⟩
  · exact (claim_C10 sampleEnv [] ["page", "sms"]).2.2.2 "sms" (by simp) (by decide)
  · exact ((claim_C10 sampleEnv [] ["page", "sms"]).2.2.1 "page" (by simp)).trans (by decide)

theorem stopReach_pending_lower (s0 : PoolState) :
    ∀ s, StopReach s0 s → s0.pending + s.getBudget ≤ s.pending + s0.getBudget := by
  intro s h
  induction h with
  | refl => omega
  | tail hab hbc ih =>
    cases hbc with
    | fetch hg hp =>
      dsimp only at *
      omega
    | finish hf =>
      dsimp only at *
      omega

/-- C3: `stop_workers` clears `_is_running` and then calls
`_task_queue.join()` with **no timeout** before the `thread.join(timeout=5)`
loop.  With 5 tasks queued and 4 workers (each able to complete at most
the one `get` it is already blocked in), the queue's `unfinished_tasks`
counter can never reach zero, so `join()` — and therefore
`stop_workers` — never returns: queued tasks are *drained-or-deadlock*,
not abandoned after a bounded timeout as the claim (and the
`thread.join(timeout=5)` right below) intends. -/
theorem claim_C3 : ¬ stopJoinCanReturn ⟨5, 0, 4⟩ := by
  rintro ⟨s, hreach, hzero⟩
  have hlow := stopReach_pending_lower ⟨5, 0, 4⟩ s hreach
  unfold unfinishedTasks at hzero
  dsimp only at hlow
  omega

/-! ### Suppression invariant under evaluator / acknowledge interleaving -/

theorem length_filter_le_of_imp {α : Type} (p q : α → Bool) :
    ∀ l : List α, (∀ x ∈ l, p x = true → q x = true) →
      (l.filter p).length ≤ (l.filter q).length
  | [], _ => Nat.le_refl 0
  | a :: t, h => by
    have ih := length_filter_le_of_imp p q t fun x hx => h x (List.mem_cons_of_mem a hx)
    by_cases hp : p a = true
    · have hq := h a (List.mem_cons_self a t) hp
      simp only [List.filter_cons, hp, hq, if_pos, List.length_cons]
      exact Nat.succ_le_succ ih
    · by_cases hq : q a = true
      · simp only [List.filter_cons, hp, hq, if_neg, if_pos, List.length_cons]
        simp only [Bool.not_eq_true] at hp
        simp only [hp, Bool.false_eq_true, if_false]
        exact Nat.le_trans ih (Nat.le_succ _)
      · simp only [Bool.not_eq_true] at hp hq
        simp only [List.filter_cons, hp, hq, Bool.false_eq_true, if_false]
        exact ih

theorem length_filter_map_le {α : Type} (f : α → α) (p : α → Bool) :
    ∀ l : List α, (∀ x ∈ l, p (f x) = true → f x = x) →
      ((l.map f).filter p).length ≤ (l.filter p).length
  | [], _ => Nat.le_refl 0
  | a :: t, h => by
    have ih := length_filter_map_le f p t fun x hx => h x (List.mem_cons_of_mem a hx)
    by_cases hpa : p (f a) = true
    · have hfa := h a (List.mem_cons_self a t) hpa
      rw [hfa] at hpa
      simp only [List.map_cons, List.filter_cons, hfa, hpa, if_pos, List.length_cons]
      exact Nat.succ_le_succ ih
    · simp only [Bool.not_eq_true] at hpa
      simp only [List.map_cons, List.filter_cons, hpa, Bool.false_eq_true, if_false]
      by_cases hqa : p a = true
      · simp only [hqa, if_pos, List.length_cons]
        exact Nat.le_trans ih (Nat.le_succ _)
      · simp only [Bool.not_eq_true] at hqa
        simp only [hqa, Bool.false_eq_true, if_false]
        exact ih

/-- C4 as amended: restricted to status `triggered` alone the invariant
holds — in every state reachable by interleaving evaluator trigger steps
with management-API acknowledgments (the only status transition the API
implements; no resolve endpoint exists), each `(rule_id, device_id)`
pair has at most one *triggered* event whose `triggered_at` lies within
the last five minutes of the state's clock. -/
theorem claim_C4 (s : EvState) (h : EvReachable s) :
    ∀ (rid : Nat) (did : Option Nat), (triggeredWindowEvents s rid did).length ≤ 1 := by
  induction h with
  | init => intro rid did; simp [triggeredWindowEvents]
  | @step sp s2 hreach hstep ih =>
    intro rid did
    cases hstep with
    | evalTraffic rule rate threshold now nid hclock hen hty hth hrate hsup =>
      unfold triggeredWindowEvents at *
      dsimp only at *
      rw [List.filter_append]
      by_cases hrid : rule.id = rid
      · have hnil : (sp.events.filter fun e =>
            e.ruleId == rid && e.deviceId == did && e.status == "triggered" &&
              decide (now - fiveMinutes ≤ e.triggeredAt)) = [] := by
          rw [List.filter_eq_nil_iff]
          intro e he hpred
          have hsup2 := List.any_eq_false.mp hsup e he
          simp only [Bool.and_eq_true, beq_iff_eq, decide_eq_true_eq] at hpred
          apply hsup2
          simp only [Bool.and_eq_true, beq_iff_eq, decide_eq_true_eq]
          exact ⟨⟨hrid ▸ hpred.1.1.1, hpred.1.2⟩, hpred.2⟩
        rw [hnil]
        simp only [List.nil_append]
        exact Nat.le_trans (List.length_filter_le _ _) (by simp)
      · have hnil2 : (List.filter (fun (e : AlertHistoryRec) =>
            e.ruleId == rid && e.deviceId == did && e.status == "triggered" &&
              decide (now - fiveMinutes ≤ e.triggeredAt))
            [{ id := nid, ruleId := rule.id, alertType := "traffic_threshold",
               severity := rule.severity, status := "triggered",
               deviceId := rule.deviceId, triggeredAt := now }]) = [] := by
          rw [List.filter_eq_nil_iff]
          intro e he hpred
          simp only [List.mem_singleton] at he
          subst he
          simp only [Bool.and_eq_true, beq_iff_eq, decide_eq_true_eq] at hpred
          exact hrid hpred.1.1.1
        rw [hnil2, List.append_nil]
        refine Nat.le_trans (length_filter_le_of_imp _ _ sp.events fun e he hp => ?_) (ih rid did)
        simp only [Bool.and_eq_true, beq_iff_eq, decide_eq_true_eq] at hp ⊢
        exact ⟨hp.1, by omega⟩
    | evalOffline rule m lastActive now did2 nid hclock hen hty hth hm hlast hsup =>
      unfold triggeredWindowEvents at *
      dsimp only at *
      rw [List.filter_append]
      by_cases hpair : rule.id = rid ∧ did = some did2
      · have hnil : (sp.events.filter fun e =>
            e.ruleId == rid && e.deviceId == did && e.status == "triggered" &&
              decide (now - fiveMinutes ≤ e.triggeredAt)) = [] := by
          rw [List.filter_eq_nil_iff]
          intro e he hpred
          have hsup2 := List.any_eq_false.mp hsup e he
          simp only [Bool.and_eq_true, beq_iff_eq, decide_eq_true_eq] at hpred
          apply hsup2
          simp only [Bool.and_eq_true, beq_iff_eq, decide_eq_true_eq]
          exact ⟨⟨⟨hpair.1 ▸ hpred.1.1.1, hpair.2 ▸ hpred.1.1.2⟩, hpred.1.2⟩, hpred.2⟩
        rw [hnil]
        simp only [List.nil_append]
        exact Nat.le_trans (List.length_filter_le _ _) (by simp)
      · have hnil2 : (List.filter (fun (e : AlertHistoryRec) =>
            e.ruleId == rid && e.deviceId == did && e.status == "triggered" &&
              decide (now - fiveMinutes ≤ e.triggeredAt))
            [{ id := nid, ruleId := rule.id, alertType := "device_offline",
               severity := rule.severity, status := "triggered",
               deviceId := some did2, triggeredAt := now }]) = [] := by
          rw [List.filter_eq_nil_iff]
          intro e he hpred
          simp only [List.mem_singleton] at he
          subst he
          simp only [Bool.and_eq_true, beq_iff_eq, decide_eq_true_eq] at hpred
          exact hpair ⟨hpred.1.1.1, hpred.1.1.2.symm⟩
        rw [hnil2, List.append_nil]
        refine Nat.le_trans (length_filter_le_of_imp _ _ sp.events fun e he hp => ?_) (ih rid did)
        simp only [Bool.and_eq_true, beq_iff_eq, decide_eq_true_eq] at hp ⊢
        exact ⟨hp.1, by omega⟩
    | ack i now hclock hex =>
      unfold triggeredWindowEvents at *
      dsimp only at *
      unfold ackEvent
      refine Nat.le_trans (length_filter_map_le _ _ sp.events fun e he hp => ?_) ?_
      · by_cases hei : e.id = i
        · simp [hei] at hp
        · simp [hei]
      · refine Nat.le_trans (length_filter_le_of_imp _ _ sp.events fun e he hp => ?_) (ih rid did)
        simp only [Bool.and_eq_true, beq_iff_eq, decide_eq_true_eq] at hp ⊢
        exact ⟨hp.1, by omega⟩

/-- C4 counterexample: trigger (rule 1, no device) at t=0, acknowledge
the event at t=1, trigger again at t=2.  The suppression query filters
on status `'triggered'` only, so the acknowledged event does not
suppress; at t=2 the pair `(1, none)` has two events with status in
`{triggered, acknowledged}` and `triggered_at` within the last five
minutes — the claimed invariant fails. -/
theorem claim_C4_counterexample :
    EvReachable
      ⟨[{ id := 1, ruleId := 1, alertType := "traffic_threshold",
          severity := "warning", status := "acknowledged",
          deviceId := none, triggeredAt := 0 },
        { id := 2, ruleId := 1, alertType := "traffic_threshold",
          severity := "warning", status := "triggered",
          deviceId := none, triggeredAt := 2 }], 2⟩ ∧
    ¬ claimedPairInvariant
      ⟨[{ id := 1, ruleId := 1, alertType := "traffic_threshold",
          severity := "warning", status := "acknowledged",
          deviceId := none, triggeredAt := 0 },
        { id := 2, ruleId := 1, alertType := "traffic_threshold",
          severity := "warning", status := "triggered",
          deviceId := none, triggeredAt := 2 }], 2⟩ := by
  constructor
  · have h1 : EvStep ⟨[], 0⟩
        ⟨[{ id := 1, ruleId := 1, alertType := "traffic_threshold",
            severity := "warning", status := "triggered",
            deviceId := none, triggeredAt := 0 }], 0⟩ :=
      EvStep.evalTraffic ⟨[], 0⟩
        ⟨1, "traffic_threshold", true, some 100, none, none, ["page"], "warning"⟩
        150 100 0 1 (by decide) rfl rfl rfl (by decide) (by decide)
    have h2 : EvStep
        ⟨[{ id := 1, ruleId := 1, alertType := "traffic_threshold",
            severity := "warning", status := "triggered",
            deviceId := none, triggeredAt := 0 }], 0⟩
        ⟨[{ id := 1, ruleId := 1, alertType := "traffic_threshold",
            severity := "warning", status := "acknowledged",
            deviceId := none, triggeredAt := 0 }], 1⟩ :=
      EvStep.ack _ 1 1 (by decide)
        ⟨{ id := 1, ruleId := 1, alertType := "traffic_threshold",
           severity := "warning", status := "triggered",
           deviceId := none, triggeredAt := 0 }, List.mem_singleton.mpr rfl, rfl⟩
    have h3 : EvStep
        ⟨[{ id := 1, ruleId := 1, alertType := "traffic_threshold",
            severity := "warning", status := "acknowledged",
            deviceId := none, triggeredAt := 0 }], 1⟩
        ⟨[{ id := 1, ruleId := 1, alertType := "traffic_threshold",
            severity := "warning", status := "acknowledged",
            deviceId := none, triggeredAt := 0 },
          { id := 2, ruleId := 1, alertType := "traffic_threshold",
            severity := "warning", status := "triggered",
            deviceId := none, triggeredAt := 2 }], 2⟩ :=
      EvStep.evalTraffic _
        ⟨1, "traffic_threshold", true, some 100, none, none, ["page"], "warning"⟩
        150 100 2 2 (by decide) rfl rfl rfl (by decide) (by decide)
    exact EvReachable.step (EvReachable.step (EvReachable.step EvReachable.init h1) h2) h3
  · intro hinv
    exact absurd (hinv 1 none) (by decide)

/-- C4 witness (for the amended theorem): the state reached by a single
trigger step satisfies the triggered-only invariant. -/
theorem claim_C4_witness :
    (triggeredWindowEvents
      ⟨[{ id := 1, ruleId := 1, alertType := "traffic_threshold",
          severity := "warning", status := "triggered",
          deviceId := none, triggeredAt := 0 }], 0⟩ 1 none).length ≤ 1 :=
  claim_C4 _
    (EvReachable.step EvReachable.init
      (EvStep.evalTraffic ⟨[], 0⟩
        ⟨1, "traffic_threshold", true, some 100, none, none, ["page"], "warning"⟩
        150 100 0 1 (by decide) rfl rfl rfl (by decide) (by decide)))
    1 none

end Bandix
